import Mathlib

/- Shallow embedding of the uds ServiceDispatcher
   (libs/vr/libpdx_uds/service_dispatcher.cpp).

   Machine-level details are modelled as follows: errno values are the
   Linux constants; epoll_ctl outcomes are an environment input of type
   Except Nat Unit (error carries the errno); a batch returned by
   epoll_wait is a list of event data pointers, each either the
   dispatcher itself (the event fd used as Control Signal) or a
   registered service, identified by a numeric id. -/

/-- Linux errno EINVAL, returned for a service with the wrong IPC tag. -/
def EINVAL : Nat := 22

/-- Linux errno EBUSY, returned when threads are active or on cancel. -/
def EBUSY : Nat := 16

/-- Linux errno EINTR, the transient interruption retried by the loop. -/
def EINTR : Nat := 4

/-- Linux errno ETIMEDOUT, returned when epoll_wait reports no events. -/
def ETIMEDOUT : Nat := 110

/-- Maximum events drained per epoll_wait call in the source. -/
def kMaxEventsPerLoop : Nat := 128

/-- The data.ptr discriminator of a ready epoll event: either the
dispatcher itself (the event fd registered in the constructor, acting as
the Control Signal) or a registered service. -/
inductive EventPtr where
  | control : EventPtr
  | service : Nat → EventPtr
deriving DecidableEq

/-- The mutable dispatcher fields relevant to the registry and thread
accounting: thread_count_, canceled_, the services_ list, and the set of
service endpoints currently registered in the epoll instance (the
Control Signal registration is tracked separately at construction). -/
structure DispatcherState where
  threadCount : Int
  canceled : Bool
  services : List Nat
  epollRegs : List Nat
deriving DecidableEq

/-- ServiceDispatcher::ThreadEnter: under the mutex, fail with -EBUSY if
canceled, otherwise increment thread_count_ and return 0. -/
def ThreadEnter (s : DispatcherState) : Int × DispatcherState :=
  if s.canceled then (-(EBUSY : Int), s)
  else (0, { s with threadCount := s.threadCount + 1 })

/-- ServiceDispatcher::ThreadExit: under the mutex, decrement
thread_count_ and notify the condition variable. -/
def ThreadExit (s : DispatcherState) : DispatcherState :=
  { s with threadCount := s.threadCount - 1 }

/-- ServiceDispatcher::AddService: reject a wrong IPC tag with -EINVAL;
then under the mutex, EPOLL_CTL_ADD the endpoint (on failure return
-errno with nothing changed) and push_back the service onto services_.
The kindOk flag models the GetIpcTag comparison and epollAdd models the
epoll_ctl outcome chosen by the kernel. -/
def AddService (s : DispatcherState) (kindOk : Bool) (sid : Nat)
    (epollAdd : Except Nat Unit) : Int × DispatcherState :=
  if !kindOk then (-(EINVAL : Int), s)
  else
    match epollAdd with
    | .error e => (-(e : Int), s)
    | .ok _ =>
      let s1 := { s with epollRegs := s.epollRegs ++ [sid] }
      (0, { s1 with services := s1.services ++ [sid] })

/-- ServiceDispatcher::RemoveService: reject a wrong IPC tag with
-EINVAL; under the mutex, fail with -EBUSY if thread_count_ > 0; then
EPOLL_CTL_DEL the endpoint (on failure return -errno with nothing
changed) and remove the service from services_ (std::list::remove erases
every element equal to the argument, hence the filter). -/
def RemoveService (s : DispatcherState) (kindOk : Bool) (sid : Nat)
    (epollDel : Except Nat Unit) : Int × DispatcherState :=
  if !kindOk then (-(EINVAL : Int), s)
  else if 0 < s.threadCount then (-(EBUSY : Int), s)
  else
    match epollDel with
    | .error e => (-(e : Int), s)
    | .ok _ =>
      let s1 := { s with epollRegs := s.epollRegs.filter (· ≠ sid) }
      (0, { s1 with services := s1.services.filter (· ≠ sid) })

/-- Outcome of one epoll_wait call: a negative return with an errno, or
a batch of ready events (the empty batch is the timeout case, return
value 0). -/
inductive WaitResult where
  | error : Nat → WaitResult
  | ready : List EventPtr → WaitResult
deriving DecidableEq

/-- Observable outcome of one ReceiveAndDispatch call: the returned
status, the post state, the ids of the services whose dispatch callback
ran, the timeout passed to epoll_wait when the wait was reached, and the
number of ThreadExit calls performed. -/
structure RDResult where
  ret : Int
  state : DispatcherState
  dispatched : List Nat
  waitTimeout : Option Int
  exits : Nat
deriving DecidableEq

/-- The for loop of ReceiveAndDispatch over the ready batch: each
service event has its dispatch callback invoked (its return value is
ignored); on the first Control Signal event the thread exits and -EBUSY
is returned; after a full batch the thread exits and 0 is returned.
Returns (status, post state, dispatched ids, ThreadExit count). -/
def processBatch (s : DispatcherState) :
    List EventPtr → Int × DispatcherState × List Nat × Nat
  | [] => (0, ThreadExit s, [], 1)
  | .control :: _ => (-(EBUSY : Int), ThreadExit s, [], 1)
  | .service sid :: rest =>
    let r := processBatch s rest
    (r.1, r.2.1, sid :: r.2.2.1, r.2.2.2)

/-- ServiceDispatcher::ReceiveAndDispatch(int timeout): ThreadEnter
(propagating -EBUSY when canceled); epoll_wait with the given timeout;
on wait error exit and return -errno, on an empty batch exit and return
-ETIMEDOUT; otherwise process the batch. -/
def ReceiveAndDispatch (timeout : Int) (s : DispatcherState)
    (w : WaitResult) : RDResult :=
  let e := ThreadEnter s
  if e.1 < 0 then ⟨e.1, e.2, [], none, 0⟩
  else
    match w with
    | .error err => ⟨-(err : Int), ThreadExit e.2, [], some timeout, 1⟩
    | .ready evs =>
      if evs.isEmpty then
        ⟨-(ETIMEDOUT : Int), ThreadExit e.2, [], some timeout, 1⟩
      else
        let p := processBatch e.2 evs
        ⟨p.1, p.2.1, p.2.2.1, some timeout, p.2.2.2⟩

/-- ServiceDispatcher::ReceiveAndDispatch(): the zero-argument overload,
which delegates to ReceiveAndDispatch(-1). -/
def ReceiveAndDispatchNoTimeout (s : DispatcherState) (w : WaitResult) :
    RDResult :=
  ReceiveAndDispatch (-1) s w

/-- The ids of the service events of a batch, in batch order. -/
def serviceIds (evs : List EventPtr) : List Nat :=
  evs.filterMap fun e =>
    match e with
    | .control => none
    | .service sid => some sid

/-- Outcomes of the three fallible construction steps: eventfd(),
epoll_create(), and the epoll_ctl that registers the event fd. -/
structure CtorEnv where
  eventfdOk : Bool
  epollCreateOk : Bool
  epollCtlOk : Bool
deriving DecidableEq

/-- The handle state a freshly constructed dispatcher can be left in:
validity of event_fd_ and epoll_fd_, and whether the event fd (Control
Signal) is registered in the epoll instance. -/
structure InitState where
  eventFdValid : Bool
  epollFdValid : Bool
  controlRegistered : Bool
deriving DecidableEq

/-- ServiceDispatcher::ServiceDispatcher: create the event fd (on
failure return early), create the epoll fd (on failure return early),
register the event fd into the epoll instance (on failure close both
fds). -/
def mkServiceDispatcher (env : CtorEnv) : InitState :=
  if !env.eventfdOk then ⟨false, false, false⟩
  else if !env.epollCreateOk then ⟨true, false, false⟩
  else if !env.epollCtlOk then ⟨false, false, false⟩
  else ⟨true, true, true⟩

/-- ServiceDispatcher::Create: run the constructor, then discard the
object and return null when epoll_fd_ or event_fd_ is invalid. -/
def Create (env : CtorEnv) : Option InitState :=
  let d := mkServiceDispatcher env
  if !d.epollFdValid || !d.eventFdValid then none else some d

/-- The inner for loop of EnterDispatchLoop over one ready batch: the
ids of the service events before the first Control Signal event, and
whether a Control Signal event occurs in the batch. -/
def scanBatch : List EventPtr → List Nat × Bool
  | [] => ([], false)
  | .control :: _ => ([], true)
  | .service sid :: rest =>
    let r := scanBatch rest
    (sid :: r.1, r.2)

/-- The while loop of ServiceDispatcher::EnterDispatchLoop, entered with
thread_count_ already incremented. The environment supplies the finite
trace of epoll_wait outcomes; none means the trace was exhausted with
the loop still running (still blocked in epoll_wait). Each iteration
checks IsCanceled (exit the loop, ThreadExit, return 0); a wait error
with errno EINTR is retried, any other wait error does ThreadExit and
returns -errno; in a ready batch every service event is dispatched
until a Control Signal event, which does ThreadExit and returns -EBUSY.
The accumulator collects the dispatched service ids. -/
def EnterDispatchLoopAux (s : DispatcherState) :
    List WaitResult → List Nat → Option (Int × DispatcherState × List Nat)
  | [], acc => if s.canceled then some (0, ThreadExit s, acc) else none
  | w :: rest, acc =>
    if s.canceled then some (0, ThreadExit s, acc)
    else
      match w with
      | .error e =>
        if e = EINTR then EnterDispatchLoopAux s rest acc
        else some (-(e : Int), ThreadExit s, acc)
      | .ready evs =>
        let b := scanBatch evs
        if b.2 then some (-(EBUSY : Int), ThreadExit s, acc ++ b.1)
        else EnterDispatchLoopAux s rest (acc ++ b.1)

/-- ServiceDispatcher::EnterDispatchLoop: ThreadEnter (propagating
-EBUSY when canceled), then the dispatch loop with infinite per-wait
timeout. -/
def EnterDispatchLoop (s : DispatcherState) (waits : List WaitResult) :
    Option (Int × DispatcherState × List Nat) :=
  let e := ThreadEnter s
  if e.1 < 0 then some (e.1, e.2, [])
  else EnterDispatchLoopAux e.2 waits []

/-- State of the thread accounting and cancellation protocol:
thread_count_ and canceled_, the signaled state of the event fd
(Control Signal), the number of threads currently between a successful
ThreadEnter and their ThreadExit (a ghost needed because ThreadExit is
only ever called by a thread whose ThreadEnter succeeded, once per
entry, on every path of ReceiveAndDispatch and EnterDispatchLoop), and
the number of SetCanceled(true) calls currently blocked in the
condition wait. -/
structure ProtoState where
  threadCount : Int
  canceled : Bool
  signaled : Bool
  active : Nat
  cancellers : Nat
deriving DecidableEq

/-- Interleaved transitions of the dispatcher mutex-protected state, as
performed by ReceiveAndDispatch, EnterDispatchLoop and SetCanceled:
a successful ThreadEnter (a failed one changes nothing); ThreadExit by
one of the active threads; SetCanceled(true) returning immediately
(thread_count_ not positive after setting the flag); SetCanceled(true)
setting the flag, writing the event fd and blocking in the condition
wait; a blocked SetCanceled(true) waking once the wait predicate
not (canceled_ and thread_count_ > 0) holds, reading the event fd back
to unsignaled and returning; SetCanceled(false), which only clears the
flag. -/
inductive DStep : ProtoState → ProtoState → Prop where
  | threadEnter (s : ProtoState) (h : s.canceled = false) :
      DStep s { s with threadCount := s.threadCount + 1,
                       active := s.active + 1 }
  | threadExit (s : ProtoState) (a : Nat) (h : s.active = a + 1) :
      DStep s { s with threadCount := s.threadCount - 1, active := a }
  | cancelTrueFast (s : ProtoState) (h : ¬0 < s.threadCount) :
      DStep s { s with canceled := true }
  | cancelTrueSlow (s : ProtoState) (h : 0 < s.threadCount) :
      DStep s { s with canceled := true, signaled := true,
                       cancellers := s.cancellers + 1 }
  | cancelWake (s : ProtoState) (c : Nat) (h : s.cancellers = c + 1)
      (hp : ¬(s.canceled = true ∧ 0 < s.threadCount)) :
      DStep s { s with signaled := false, cancellers := c }
  | cancelFalse (s : ProtoState) :
      DStep s { s with canceled := false }

/-- The freshly constructed dispatcher: no threads, not canceled, event
fd unsignaled. -/
def initProto : ProtoState := ⟨0, false, false, 0, 0⟩

/-- States reachable from the freshly constructed dispatcher under the
protocol transitions. -/
inductive ReachableProto : ProtoState → Prop where
  | init : ReachableProto initProto
  | step {s s' : ProtoState} :
      ReachableProto s → DStep s s' → ReachableProto s'

/-- ServiceDispatcher::SetCanceled called with no worker thread running
concurrently (the scenario of two consecutive calls with no thread
entering the dispatch loop in between): the flag is set; if cancel is
true and thread_count_ > 0 the call blocks in the condition wait, and
with no thread left to decrement the count and notify, it never
returns (none); otherwise it returns at once without touching the
event fd. -/
def SetCanceledQuiescent (s : ProtoState) (cancel : Bool) :
    Option ProtoState :=
  let s1 := { s with canceled := cancel }
  if cancel = true ∧ 0 < s1.threadCount then none else some s1

/-- One registry call: AddService or RemoveService, with the IPC tag
comparison outcome, the service id, and the epoll_ctl outcome. -/
inductive RegOp where
  | add : Bool → Nat → Except Nat Unit → RegOp
  | remove : Bool → Nat → Except Nat Unit → RegOp

/-- State effect of one registry call. -/
def applyRegOp (s : DispatcherState) : RegOp → DispatcherState
  | .add k sid ep => (AddService s k sid ep).2
  | .remove k sid ep => (RemoveService s k sid ep).2

/-- State effect of a sequence of registry calls, in order. -/
def runRegOps (s : DispatcherState) (ops : List RegOp) : DispatcherState :=
  ops.foldl applyRegOp s

/-- Whether the epoll_ctl outcome of a registry call is success. -/
def epOk : Except Nat Unit → Bool
  | .ok _ => true
  | .error _ => false

/-- Expected registry membership after one call, written from the words
of the spec for comparison with the code: a successful add appends the
service, a successful remove deletes it, a failed call changes
nothing. -/
def specMembershipStep (l : List Nat) : RegOp → List Nat
  | .add k sid ep => if k && epOk ep then l ++ [sid] else l
  | .remove k sid ep => if k && epOk ep then l.filter (· ≠ sid) else l

/-- Expected registry membership after a sequence of calls: the net
successful adds minus removes, applied in order. -/
def specMembership (l : List Nat) (ops : List RegOp) : List Nat :=
  ops.foldl specMembershipStep l

lemma processBatch_net (s : DispatcherState) (evs : List EventPtr) :
    (processBatch s evs).2.1.threadCount = s.threadCount - 1 ∧
      (processBatch s evs).2.2.2 = 1 := by
  induction evs with
  | nil => simp [processBatch, ThreadExit]
  | cons e rest ih =>
    cases e with
    | control => simp [processBatch, ThreadExit]
    | service sid => simpa [processBatch] using ih

/-- C2: a call to ReceiveAndDispatch whose ThreadEnter succeeded (the
dispatcher was not canceled) performs exactly one ThreadExit before
returning, on every exit path, so its net effect on thread_count_ is
zero. -/
theorem c2_receive_and_dispatch_net_zero (t : Int) (s : DispatcherState)
    (w : WaitResult) (h : s.canceled = false) :
    (ReceiveAndDispatch t s w).state.threadCount = s.threadCount ∧
      (ReceiveAndDispatch t s w).exits = 1 := by
  cases w with
  | error err =>
    simp [ReceiveAndDispatch, ThreadEnter, ThreadExit, h]
  | ready evs =>
    cases evs with
    | nil => simp [ReceiveAndDispatch, ThreadEnter, ThreadExit, h]
    | cons e rest =>
      have hp :=
        processBatch_net { s with threadCount := s.threadCount + 1 }
          (e :: rest)
      simp only [ReceiveAndDispatch, ThreadEnter, h] at hp ⊢
      simp only [Bool.false_eq_true, if_false, lt_self_iff_false,
        List.isEmpty_cons] at hp ⊢
      refine ⟨?_, hp.2⟩
      rw [hp.1]
      omega

/-- C2 witness at a concrete input: one ready service event, net thread
count change zero and one ThreadExit. -/
theorem c2_witness :
    (ReceiveAndDispatch 5 ⟨0, false, [], []⟩
        (.ready [.service 7])).state.threadCount =
        (⟨0, false, [], []⟩ : DispatcherState).threadCount ∧
      (ReceiveAndDispatch 5 ⟨0, false, [], []⟩
        (.ready [.service 7])).exits = 1 :=
  c2_receive_and_dispatch_net_zero 5 ⟨0, false, [], []⟩
    (.ready [.service 7]) rfl

/-- C3: for a service of the correct handle kind, RemoveService while
thread_count_ > 0 returns -EBUSY and changes neither the services_
registry nor the epoll registration set (the whole state is
untouched). -/
theorem c3_remove_service_busy (s : DispatcherState) (sid : Nat)
    (ep : Except Nat Unit) (h : 0 < s.threadCount) :
    RemoveService s true sid ep = (-(EBUSY : Int), s) := by
  simp [RemoveService, h]

/-- C3 witness at a concrete input: one active thread makes removal
fail busy with the state unchanged. -/
theorem c3_witness :
    RemoveService ⟨1, false, [3], [3]⟩ true 3 (.ok ()) =
      (-(EBUSY : Int), ⟨1, false, [3], [3]⟩) :=
  c3_remove_service_busy ⟨1, false, [3], [3]⟩ 3 (.ok ()) (by decide)

lemma processBatch_stops (s : DispatcherState) (evs : List EventPtr)
    (i : Nat) (hi : i < evs.length)
    (hctl : evs.get ⟨i, hi⟩ = EventPtr.control)
    (hpre : ∀ e ∈ evs.take i, e ≠ EventPtr.control) :
    processBatch s evs =
      (-(EBUSY : Int), ThreadExit s, serviceIds (evs.take i), 1) := by
  induction evs generalizing i with
  | nil => exact absurd hi (by simp)
  | cons e rest ih =>
    cases i with
    | zero =>
      have he : e = EventPtr.control := hctl
      subst he
      simp [processBatch, serviceIds]
    | succ j =>
      have he : e ≠ EventPtr.control := hpre e (by simp)
      cases e with
      | control => exact absurd rfl he
      | service sid =>
        have hj : j < rest.length := by simpa using hi
        have hctl2 : rest.get ⟨j, hj⟩ = EventPtr.control := by
          simpa using hctl
        have hpre2 : ∀ x ∈ rest.take j, x ≠ EventPtr.control := by
          intro x hx
          exact hpre x (by simp [hx])
        have hr := ih j hj hctl2 hpre2
        simp [processBatch, hr, serviceIds]

/-- C4: when the ready batch has the Control Signal at position i and
no Control Signal before it, ReceiveAndDispatch returns -EBUSY and the
dispatched services are exactly the ones at positions before i in the
batch; nothing after position i is processed. -/
theorem c4_control_signal_stops_batch (t : Int) (s : DispatcherState)
    (evs : List EventPtr) (i : Nat) (hi : i < evs.length)
    (hc : s.canceled = false)
    (hctl : evs.get ⟨i, hi⟩ = EventPtr.control)
    (hpre : ∀ e ∈ evs.take i, e ≠ EventPtr.control) :
    (ReceiveAndDispatch t s (.ready evs)).ret = -(EBUSY : Int) ∧
      (ReceiveAndDispatch t s (.ready evs)).dispatched =
        serviceIds (evs.take i) := by
  cases evs with
  | nil => exact absurd hi (by simp)
  | cons e rest =>
    have hp :=
      processBatch_stops { s with threadCount := s.threadCount + 1 }
        (e :: rest) i hi hctl hpre
    rw [hc] at hp
    simp [ReceiveAndDispatch, ThreadEnter, hc, hp]

/-- C4 witness at a concrete input: the Control Signal at position 1
stops the batch after dispatching the single service before it. -/
theorem c4_witness :
    (ReceiveAndDispatch 0 ⟨0, false, [], []⟩
        (.ready [.service 1, .control, .service 2])).ret =
        -(EBUSY : Int) ∧
      (ReceiveAndDispatch 0 ⟨0, false, [], []⟩
        (.ready [.service 1, .control, .service 2])).dispatched =
        serviceIds ([EventPtr.service 1, .control, .service 2].take 1) :=
  c4_control_signal_stops_batch 0 ⟨0, false, [], []⟩
    [.service 1, .control, .service 2] 1 (by decide) rfl (by decide)
    (by decide)

/-- C5: if any construction step fails (eventfd, epoll_create, or the
epoll_ctl registering the Control Signal), Create returns none; and a
dispatcher Create does return has both handles valid and the Control
Signal registered. -/
theorem c5_create_all_or_nothing :
    (∀ env : CtorEnv,
        env.eventfdOk = false ∨ env.epollCreateOk = false ∨
          env.epollCtlOk = false →
        Create env = none) ∧
      ∀ (env : CtorEnv) (d : InitState), Create env = some d →
        d.eventFdValid = true ∧ d.epollFdValid = true ∧
          d.controlRegistered = true := by
  constructor
  · rintro ⟨a, b, c⟩
    revert a b c
    decide
  · rintro ⟨a, b, c⟩ ⟨x, y, z⟩
    revert a b c x y z
    decide

/-- C5 witness at concrete inputs: a failed eventfd step yields none,
and the fully successful construction is fully initialized. -/
theorem c5_witness :
    Create ⟨false, true, true⟩ = none ∧
      (⟨true, true, true⟩ : InitState).eventFdValid = true ∧
      (⟨true, true, true⟩ : InitState).epollFdValid = true ∧
      (⟨true, true, true⟩ : InitState).controlRegistered = true :=
  ⟨c5_create_all_or_nothing.1 ⟨false, true, true⟩ (Or.inl rfl),
    c5_create_all_or_nothing.2 ⟨true, true, true⟩ ⟨true, true, true⟩ rfl⟩

/-- C6: registry and multiplexer registrations stay in lockstep. A
failed epoll_ctl in AddService returns -errno and creates no registry
entry (state untouched); a failed epoll_ctl in RemoveService returns
-errno and retains the registry entry (state untouched); and on every
outcome of either call, equal registry and registration sets stay
equal. -/
theorem c6_registry_mux_lockstep (s : DispatcherState) (sid : Nat)
    (e : Nat) :
    AddService s true sid (.error e) = (-(e : Int), s) ∧
      (¬0 < s.threadCount →
        RemoveService s true sid (.error e) = (-(e : Int), s)) ∧
      ∀ (k : Bool) (ep : Except Nat Unit),
        s.services = s.epollRegs →
          (AddService s k sid ep).2.services =
              (AddService s k sid ep).2.epollRegs ∧
            (RemoveService s k sid ep).2.services =
              (RemoveService s k sid ep).2.epollRegs := by
  refine ⟨by simp [AddService], fun h => by simp [RemoveService, h], ?_⟩
  intro k ep hse
  cases k <;> cases ep <;>
    by_cases h : 0 < s.threadCount <;>
      simp [AddService, RemoveService, h, hse]

/-- C6 witness at concrete inputs: failed add and failed remove leave
the state untouched and surface errno 12, and a successful add keeps
the two sets equal. -/
theorem c6_witness :
    AddService ⟨0, false, [5], [5]⟩ true 9 (.error 12) =
        (-((12 : Nat) : Int), ⟨0, false, [5], [5]⟩) ∧
      RemoveService ⟨0, false, [5], [5]⟩ true 9 (.error 12) =
        (-((12 : Nat) : Int), ⟨0, false, [5], [5]⟩) ∧
      (AddService ⟨0, false, [5], [5]⟩ true 9 (.ok ())).2.services =
        (AddService ⟨0, false, [5], [5]⟩ true 9 (.ok ())).2.epollRegs :=
  ⟨(c6_registry_mux_lockstep ⟨0, false, [5], [5]⟩ 9 12).1,
    (c6_registry_mux_lockstep ⟨0, false, [5], [5]⟩ 9 12).2.1 (by decide),
    ((c6_registry_mux_lockstep ⟨0, false, [5], [5]⟩ 9 12).2.2 true
        (.ok ()) rfl).1⟩

lemma applyRegOp_threadCount (s : DispatcherState) (op : RegOp) :
    (applyRegOp s op).threadCount = s.threadCount := by
  cases op with
  | add k sid ep =>
    cases k <;> cases ep <;> simp [applyRegOp, AddService]
  | remove k sid ep =>
    cases k <;> cases ep <;>
      by_cases h : 0 < s.threadCount <;>
        simp [applyRegOp, RemoveService, h]

lemma applyRegOp_services (s : DispatcherState) (op : RegOp)
    (h : s.threadCount = 0) :
    (applyRegOp s op).services = specMembershipStep s.services op := by
  cases op with
  | add k sid ep =>
    cases k <;> cases ep <;>
      simp [applyRegOp, AddService, specMembershipStep, epOk]
  | remove k sid ep =>
    cases k <;> cases ep <;>
      simp [applyRegOp, RemoveService, specMembershipStep, epOk, h]

/-- C7: with no active dispatch thread, any sequence of AddService and
RemoveService calls leaves services_ holding exactly the membership
produced by applying the successful adds and removes in order. -/
theorem c7_registry_matches_net_ops (s : DispatcherState)
    (ops : List RegOp) (h : s.threadCount = 0) :
    (runRegOps s ops).services = specMembership s.services ops := by
  induction ops generalizing s with
  | nil => rfl
  | cons op rest ih =>
    have h2 : (applyRegOp s op).threadCount = 0 := by
      rw [applyRegOp_threadCount, h]
    calc (runRegOps s (op :: rest)).services
        = (runRegOps (applyRegOp s op) rest).services := rfl
      _ = specMembership (applyRegOp s op).services rest := ih _ h2
      _ = specMembership (specMembershipStep s.services op) rest := by
          rw [applyRegOp_services s op h]
      _ = specMembership s.services (op :: rest) := rfl

/-- C7 witness at a concrete input: add 3, add 4, remove 3 ends with
membership matching the spec fold. -/
theorem c7_witness :
    (runRegOps ⟨0, false, [], []⟩
        [.add true 3 (.ok ()), .add true 4 (.ok ()),
          .remove true 3 (.ok ())]).services =
      specMembership ([] : List Nat)
        [.add true 3 (.ok ()), .add true 4 (.ok ()),
          .remove true 3 (.ok ())] :=
  c7_registry_matches_net_ops ⟨0, false, [], []⟩
    [.add true 3 (.ok ()), .add true 4 (.ok ()),
      .remove true 3 (.ok ())] rfl

lemma proto_inv {s : ProtoState} (h : ReachableProto s) :
    s.threadCount = (s.active : Int) ∧
      (s.cancellers = 0 → s.signaled = false) := by
  induction h with
  | init => exact ⟨rfl, fun _ => rfl⟩
  | @step s s' hr hs ih =>
    obtain ⟨h1, h2⟩ := ih
    cases hs with
    | threadEnter hc =>
      refine ⟨?_, h2⟩
      show s.threadCount + 1 = ((s.active + 1 : Nat) : Int)
      push_cast
      omega
    | threadExit a ha =>
      refine ⟨?_, h2⟩
      show s.threadCount - 1 = (a : Int)
      have : s.active = a + 1 := ha
      omega
    | cancelTrueFast hc => exact ⟨h1, h2⟩
    | cancelTrueSlow hc =>
      refine ⟨h1, ?_⟩
      intro hz
      exact absurd hz (Nat.succ_ne_zero _)
    | cancelWake c hcn hp => exact ⟨h1, fun _ => rfl⟩
    | cancelFalse => exact ⟨h1, h2⟩

/-- C1: in every state reachable under the interleaved ThreadEnter,
ThreadExit and SetCanceled transitions, thread_count_ is nonnegative;
and in a state where a SetCanceled(true) call returns (the flag is set
and the condition-wait predicate not (canceled_ and thread_count_ > 0)
holds), thread_count_ is exactly 0. -/
theorem c1_thread_count_invariant (s : ProtoState)
    (h : ReachableProto s) :
    0 ≤ s.threadCount ∧
      (s.canceled = true ∧ ¬(s.canceled = true ∧ 0 < s.threadCount) →
        s.threadCount = 0) := by
  have h1 := (proto_inv h).1
  have hnn : 0 ≤ s.threadCount := by
    rw [h1]
    exact Int.natCast_nonneg _
  refine ⟨hnn, ?_⟩
  rintro ⟨hc, hnp⟩
  have hle : ¬0 < s.threadCount := fun hp => hnp ⟨hc, hp⟩
  omega

/-- C1 witness at a concrete reachable state: the freshly constructed
dispatcher. -/
theorem c1_witness :
    0 ≤ initProto.threadCount ∧
      (initProto.canceled = true ∧
          ¬(initProto.canceled = true ∧ 0 < initProto.threadCount) →
        initProto.threadCount = 0) :=
  c1_thread_count_invariant initProto ReachableProto.init

/-- C8: after a SetCanceled(true) call returns with no worker thread
running, a second SetCanceled(true) also returns (it does not block in
the condition wait) and the Control Signal is unsignaled afterwards. -/
theorem c8_set_canceled_idempotent (s s1 : ProtoState)
    (hr : ReachableProto s) (hq : s.cancellers = 0)
    (h1 : SetCanceledQuiescent s true = some s1) :
    ∃ s2, SetCanceledQuiescent s1 true = some s2 ∧
      s2.signaled = false := by
  have hsig : s.signaled = false := (proto_inv hr).2 hq
  by_cases hc : 0 < s.threadCount
  · exact absurd h1 (by simp [SetCanceledQuiescent, hc])
  · have hs1 : s1 = { s with canceled := true } := by
      simp [SetCanceledQuiescent, hc] at h1
      exact h1.symm
    subst hs1
    refine ⟨{ s with canceled := true }, ?_, hsig⟩
    simp [SetCanceledQuiescent, hc]

/-- C8 witness at a concrete input: the state left by a first
SetCanceled(true) on the fresh dispatcher. -/
theorem c8_witness :
    ∃ s2, SetCanceledQuiescent ⟨0, true, false, 0, 0⟩ true = some s2 ∧
      s2.signaled = false :=
  c8_set_canceled_idempotent initProto ⟨0, true, false, 0, 0⟩
    ReachableProto.init rfl (by decide)

/-- C9: inside the dispatch loop, a wait failure with errno EINTR is
retried (the iteration continues with the state untouched, no error
returned, no decrement), while a wait failure with any other errno does
ThreadExit and returns -errno. -/
theorem c9_eintr_retry (s : DispatcherState) (rest : List WaitResult)
    (acc : List Nat) (h : s.canceled = false) :
    EnterDispatchLoopAux s (.error EINTR :: rest) acc =
        EnterDispatchLoopAux s rest acc ∧
      ∀ e, e ≠ EINTR →
        EnterDispatchLoopAux s (.error e :: rest) acc =
          some (-(e : Int), ThreadExit s, acc) := by
  constructor
  · simp only [EnterDispatchLoopAux]
    simp [h]
  · intro e he
    simp only [EnterDispatchLoopAux]
    simp [h, he]

/-- C9 witness at concrete inputs: EINTR is retried, errno 9 is
fatal. -/
theorem c9_witness :
    EnterDispatchLoopAux ⟨1, false, [], []⟩ [.error EINTR] [] =
        EnterDispatchLoopAux ⟨1, false, [], []⟩ [] [] ∧
      EnterDispatchLoopAux ⟨1, false, [], []⟩ [.error 9] [] =
        some (-((9 : Nat) : Int), ThreadExit ⟨1, false, [], []⟩, []) :=
  ⟨(c9_eintr_retry ⟨1, false, [], []⟩ [] [] rfl).1,
    (c9_eintr_retry ⟨1, false, [], []⟩ [] [] rfl).2 9 (by decide)⟩

/-- C10: the zero-argument ReceiveAndDispatch overload produces the very
same result (status, state changes, dispatched services) as
ReceiveAndDispatch(-1), and any wait it performs uses the indefinitely
blocking timeout -1. -/
theorem c10_no_timeout_overload (s : DispatcherState) (w : WaitResult) :
    ReceiveAndDispatchNoTimeout s w = ReceiveAndDispatch (-1) s w ∧
      ∀ t : Int,
        (ReceiveAndDispatchNoTimeout s w).waitTimeout = some t →
          t = -1 := by
  refine ⟨rfl, ?_⟩
  intro t ht
  by_cases hc : s.canceled = true
  · norm_num [ReceiveAndDispatchNoTimeout, ReceiveAndDispatch,
      ThreadEnter, hc, EBUSY] at ht
    exact Option.noConfusion ht
  · simp only [Bool.not_eq_true] at hc
    cases w with
    | error e =>
      simp [ReceiveAndDispatchNoTimeout, ReceiveAndDispatch,
        ThreadEnter, hc] at ht
      omega
    | ready evs =>
      cases evs with
      | nil =>
        simp [ReceiveAndDispatchNoTimeout, ReceiveAndDispatch,
          ThreadEnter, hc] at ht
        omega
      | cons a l =>
        simp [ReceiveAndDispatchNoTimeout, ReceiveAndDispatch,
          ThreadEnter, hc] at ht
        omega

/-- C10 witness at a concrete input. -/
theorem c10_witness :
    ReceiveAndDispatchNoTimeout ⟨0, false, [], []⟩ (.error 3) =
        ReceiveAndDispatch (-1) ⟨0, false, [], []⟩ (.error 3) ∧
      (-1 : Int) = -1 :=
  ⟨(c10_no_timeout_overload ⟨0, false, [], []⟩ (.error 3)).1,
    (c10_no_timeout_overload ⟨0, false, [], []⟩ (.error 3)).2 (-1)
      (by decide)⟩
